import Mathlib

/-!
Shallow embedding of the SimpleMonitor execution core
(`simplemonitor/Monitors/monitor.py` and `simplemonitor/util/__init__.py`).

Modelling conventions:
* Wall-clock instants (`datetime.datetime.utcnow()` and `time.time()`) are
  modelled as natural numbers of seconds; each mutating operation takes the
  current instant `now` as an explicit parameter.
* `timedelta.seconds` (the within-day seconds component of a non-negative
  Python timedelta) is modelled as `(now - earlier) % 86400` on naturals.
* Python instance attributes of a `Monitor` are gathered into one structure;
  the un-set `_last_run` attribute is modelled as `0`, which is exactly the
  value the code itself uses as the "no prior run" sentinel.
* Spawning the external recovery subprocess is modelled by an explicit
  `HookOutcome` parameter (the child's exit code, or the text of the launch
  exception); everything else about the hook functions follows the code.
-/

namespace SimpleMonitor

/-- MonitorState enum from `util/__init__.py`: UNKNOWN / SKIPPED / OK / FAILED. -/
inductive MonitorState where
  | UNKNOWN
  | SKIPPED
  | OK
  | FAILED
deriving DecidableEq, Repr

/-- Outcome of attempting to launch the external recovery command:
either the child process ran and exited with a code, or launching raised. -/
inductive HookOutcome where
  | exited (returncode : Int)
  | launchError (err : String)
deriving DecidableEq, Repr

/-- Text recorded by `attempt_recover` / `run_recovered` for a hook outcome. -/
def hook_result_text : HookOutcome → String
  | .exited n => "Command executed and returned " ++ toString n
  | .launchError e => "Unable to run command: " ++ e

/-- The mutable/config state of `Monitors.monitor.Monitor` that the verified
operations read or write.  Field names follow the Python attributes
(`_tolerance` → `tolerance`, `_state` → `state`, `_force_run` → `force_run`,
`_last_run` → `last_run`, `_failed_at` → `failed_at`,
`_recover_command` → `recover_command`, `_minimum_gap` → `minimum_gap`). -/
structure Monitor where
  tolerance : Nat
  minimum_gap : Nat
  recover_command : Option String
  recovered_command : Option String
  last_result : String
  error_count : Nat
  failed_at : Option Nat
  success_count : Nat
  tests_run : Nat
  last_error_count : Nat
  skip_dep : Option String
  failures : Nat
  last_failure : Option Nat
  uptime_start : Option Nat
  last_update : Option Nat
  unavailable_seconds : Nat
  recover_info : String
  recovered_info : String
  state : MonitorState
  force_run : Bool
  last_run : Nat
deriving DecidableEq, Repr

/-- State of a freshly constructed monitor (`Monitor.__init__` plus the
class-level attribute defaults). -/
def Monitor.initial (tolerance minimum_gap : Nat)
    (recover_command recovered_command : Option String) : Monitor where
  tolerance := tolerance
  minimum_gap := minimum_gap
  recover_command := recover_command
  recovered_command := recovered_command
  last_result := ""
  error_count := 0
  failed_at := none
  success_count := 0
  tests_run := 0
  last_error_count := 0
  skip_dep := none
  failures := 0
  last_failure := none
  uptime_start := none
  last_update := none
  unavailable_seconds := 0
  recover_info := ""
  recovered_info := ""
  state := .UNKNOWN
  force_run := true
  last_run := 0

/-- Seconds component of the Python timedelta `now - earlier`
(both instants in whole seconds, `now ≥ earlier` in every reachable call). -/
def timedelta_seconds (now earlier : Nat) : Nat := (now - earlier) % 86400

/-- Monitor._add_unavailable_seconds: accumulate downtime if we have a
last_update timestamp and no success has been recorded since. -/
def add_unavailable_seconds (now : Nat) (m : Monitor) : Monitor :=
  match m.last_update with
  | some lu =>
      if m.success_count = 0 then
        { m with unavailable_seconds :=
            m.unavailable_seconds + timedelta_seconds now lu }
      else m
  | none => m

/-- Monitor.virtual_fail_count: `max(error_count - tolerance, 0)` (Python int
arithmetic, so the subtraction is over the integers). -/
def virtual_fail_count (m : Monitor) : Int :=
  max ((m.error_count : Int) - (m.tolerance : Int)) 0

/-- Monitor.test_success: `not bool(virtual_fail_count())`. -/
def test_success (m : Monitor) : Bool :=
  virtual_fail_count m == 0

/-- Monitor.first_failure: `error_count == tolerance + 1`. -/
def first_failure (m : Monitor) : Bool :=
  m.error_count == m.tolerance + 1

/-- Monitor.last_virtual_fail_count: `max(0, last_error_count - tolerance)`. -/
def last_virtual_fail_count (m : Monitor) : Int :=
  max 0 ((m.last_error_count : Int) - (m.tolerance : Int))

/-- Monitor.all_better_now: truthy `last_virtual_fail_count()` and
`success_count == 1` and state not SKIPPED. -/
def all_better_now (m : Monitor) : Bool :=
  last_virtual_fail_count m != 0 && m.success_count == 1
    && !(m.state == MonitorState.SKIPPED)

/-- Monitor.record_fail: returns the updated monitor and the Python return
value (always `False`). -/
def record_fail (message : String) (now : Nat) (m : Monitor) : Monitor × Bool :=
  let m1 := { m with error_count := m.error_count + 1 }
  let m2 := add_unavailable_seconds now m1
  let m3 := { m2 with last_update := some now, last_result := message }
  let m4 :=
    if virtual_fail_count m3 == 1 then
      { m3 with failed_at := some now, last_failure := some now,
                failures := m3.failures + 1, state := .FAILED }
    else m3
  ({ m4 with success_count := 0, tests_run := m4.tests_run + 1,
             uptime_start := none }, false)

/-- Monitor.record_success: returns the updated monitor and the Python return
value (always `True`). -/
def record_success (message : String) (now : Nat) (m : Monitor) :
    Monitor × Bool :=
  let m1 :=
    if m.error_count > 0 then { m with last_error_count := m.error_count }
    else m
  let m2 :=
    if m1.uptime_start = none then { m1 with uptime_start := some now }
    else m1
  let m3 := add_unavailable_seconds now m2
  ({ m3 with state := .OK, error_count := 0, last_update := some now,
             success_count := m3.success_count + 1,
             tests_run := m3.tests_run + 1, last_result := message }, true)

/-- Monitor.record_skip: with a blocking dependency, first do the full
`record_success("")` bookkeeping and remember the dependency; always end in
state SKIPPED and return `True`. -/
def record_skip (which_dep : Option String) (now : Nat) (m : Monitor) :
    Monitor × Bool :=
  let m1 :=
    match which_dep with
    | some dep => { (record_success "" now m).1 with skip_dep := some dep }
    | none => m
  ({ m1 with state := .SKIPPED }, true)

/-- Monitor.should_run: the five-branch scheduling gate, with `now` the
current epoch seconds (Python reads `int(time.time())` itself). -/
def should_run (now : Nat) (m : Monitor) : Monitor × Bool :=
  if m.force_run then
    ({ m with force_run := false, last_run := now }, true)
  else if m.minimum_gap = 0 then
    ({ m with last_run := now }, true)
  else if m.error_count > 0 then
    ({ m with last_run := now }, true)
  else if m.last_run = 0 then
    ({ m with last_run := now }, true)
  else if (now : Int) - (m.last_run : Int) ≥ (m.minimum_gap : Int) then
    ({ m with last_run := now }, true)
  else (m, false)

/-- Monitor.attempt_recover, with the subprocess modelled by `outcome`. -/
def attempt_recover (outcome : HookOutcome) (m : Monitor) : Monitor :=
  match m.recover_command with
  | none => { m with recover_info := "" }
  | some _ =>
      if !(first_failure m) then m
      else { m with recover_info := hook_result_text outcome }

/-- Monitor.run_recovered, with the subprocess modelled by `outcome`. -/
def run_recovered (outcome : HookOutcome) (m : Monitor) : Monitor :=
  match m.recovered_command with
  | none => { m with recovered_info := "" }
  | some _ =>
      if all_better_now m then
        { m with recovered_info := hook_result_text outcome }
      else m

/-- One result-recording call on a monitor (the three mutators a scheduling
tick may apply), with its wall-clock instant. -/
inductive MOp where
  | fail (message : String) (now : Nat)
  | success (message : String) (now : Nat)
  | skip (which_dep : Option String) (now : Nat)
deriving DecidableEq, Repr

/-- Apply one recording operation to a monitor. -/
def apply_op (m : Monitor) : MOp → Monitor
  | .fail message now => (record_fail message now m).1
  | .success message now => (record_success message now m).1
  | .skip d now => (record_skip d now m).1

/-- Apply a sequence of recording operations, oldest first. -/
def apply_ops (m : Monitor) (ops : List MOp) : Monitor :=
  ops.foldl apply_op m

/-- Amount `_add_unavailable_seconds` adds, as a function of the fields it
reads (`last_update` and `success_count`). -/
def unavailable_delta (now : Nat) (lu : Option Nat) (sc : Nat) : Nat :=
  match lu with
  | some t => if sc = 0 then timedelta_seconds now t else 0
  | none => 0

/-- Condition under which `record_fail` stamps the failure timestamps,
bumps `failures` and sets state FAILED: the virtual fail count of the
incremented error counter is exactly 1. -/
def fail_crossed (m : Monitor) : Bool :=
  virtual_fail_count { m with error_count := m.error_count + 1 } == 1

/-- Invariant of claim C6: a zero error counter keeps the display state out
of FAILED, and FAILED is only displayed while `error_count` exceeds the
tolerance. -/
def state_invariant (m : Monitor) : Prop :=
  (m.error_count = 0 →
    m.state = .OK ∨ m.state = .SKIPPED ∨ m.state = .UNKNOWN)
  ∧ (m.state = .FAILED → m.tolerance < m.error_count)

/-- Python `datetime.timedelta` restricted to whole seconds: normalized
`days` plus a within-day `seconds` component (`0 ≤ seconds < 86400` for the
values datetime subtraction produces).  `from_timedelta` reads only these
two components. -/
structure Timedelta where
  days : Int
  seconds : Nat
deriving DecidableEq, Repr

/-- util.UpDownTime's four stored components. -/
structure UpDownTime where
  days : Int
  hours : Nat
  minutes : Nat
  seconds : Nat
deriving DecidableEq, Repr

/-- UpDownTime.from_timedelta: the decomposition exactly as coded, with its
strict `>` comparisons (`divmod` only fires strictly above 3600 resp. 60). -/
def UpDownTime.from_timedelta (td : Timedelta) : UpDownTime :=
  let ds0 := td.seconds
  let hm := if ds0 > 3600 then (ds0 / 3600, ds0 % 3600) else (0, ds0)
  let msm := if hm.2 > 60 then (hm.2 / 60, hm.2 % 60) else (0, hm.2)
  { days := td.days, hours := hm.1, minutes := msm.1, seconds := msm.2 }

/-- Python format spec `{:02}`: zero-pad to two digits. -/
def pad2 (n : Nat) : String :=
  if n < 10 then "0" ++ toString n else toString n

/-- UpDownTime.__str__: `"{}+{:02}:{:02}:{:02}"`. -/
def UpDownTime.toStr (u : UpDownTime) : String :=
  toString u.days ++ "+" ++ pad2 u.hours ++ ":" ++ pad2 u.minutes ++ ":"
    ++ pad2 u.seconds

/-- Values living in the untyped options mapping handled by
`get_config_option` (and the values it returns).  The `float` leg of the
Python function is not modelled (floating point); everything else is.
Equality is structural (Python's cross-type `True == 1` is not modelled). -/
inductive CfgValue where
  | str (s : String)
  | int (n : Int)
  | bool (b : Bool)
  | listStr (l : List String)
  | listInt (l : List Int)
deriving DecidableEq, Repr

/-- The `required_type` tags of `get_config_option` that the model covers
(`"float"` omitted: floating point). -/
inductive ReqType where
  | str
  | int
  | bool
  | listStr
  | listInt
deriving DecidableEq, Repr

/-- The keyword arguments of `get_config_option`. -/
structure CfgQuery where
  default : Option CfgValue
  required : Bool
  required_type : ReqType
  allowed_values : Option (List CfgValue)
  allow_empty : Bool
  minimum : Option Int
  maximum : Option Int
deriving Repr

/-- Digits of a Python int literal: `int(s)` accepts a non-empty digit run
(model of the decimal grammar; surrounding whitespace and underscores are
not modelled). -/
def parse_digits : List Char → Option Nat
  | [] => none
  | cs =>
      cs.foldl
        (fun acc c =>
          match acc with
          | some a => if c.isDigit then some (a * 10 + (c.toNat - 48)) else none
          | none => none)
        (some 0)

/-- Python `int(s)` on a string: optional sign then digits. -/
def parseInt (s : String) : Option Int :=
  match s.toList with
  | '-' :: rest => (parse_digits rest).map (fun n => -(n : Int))
  | '+' :: rest => (parse_digits rest).map (fun n => (n : Int))
  | cs => (parse_digits cs).map (fun n => (n : Int))

/-- `[int(x) for x in value.split(",")]`. -/
def parseIntList (s : String) : Option (List Int) :=
  (s.splitOn ",").mapM parseInt

/-- Test `minimum is not None and value < minimum`. -/
def below_min (minimum : Option Int) (n : Int) : Bool :=
  match minimum with
  | some lo => n < lo
  | none => false

/-- Test `maximum is not None and value > maximum`. -/
def above_max (maximum : Option Int) (n : Int) : Bool :=
  match maximum with
  | some hi => n > hi
  | none => false

/-- `config_options.get(key, default)`. -/
def lookup_value (options : List (String × CfgValue)) (key : String)
    (default : Option CfgValue) : Option CfgValue :=
  match options.lookup key with
  | some v => some v
  | none => default

/-- The `isinstance(value, str)` conversion block of `get_config_option`:
empty-string rejection, int parsing with bounds, `[int]` parsing, boolean
truthy-word parsing, `[str]` splitting.  Non-string values pass through
untouched, exactly as in the source. -/
def convert_value (rt : ReqType) (allow_empty : Bool)
    (minimum maximum : Option Int) (v : Option CfgValue) :
    Except Unit (Option CfgValue) :=
  match v with
  | some (.str s) =>
      match rt with
      | .str =>
          if s = "" && !allow_empty then .error () else .ok (some (.str s))
      | .int =>
          match parseInt s with
          | none => .error ()
          | some n =>
              if below_min minimum n then .error ()
              else if above_max maximum n then .error ()
              else .ok (some (.int n))
      | .listInt =>
          match parseIntList s with
          | none => .error ()
          | some l => .ok (some (.listInt l))
      | .bool => .ok (some (.bool (["1", "true", "yes"].contains s.toLower)))
      | .listStr =>
          .ok (some (.listStr ((s.splitOn ",").map String.trim)))
  | other => .ok other

/-- The `allowed_values` block of `get_config_option`: list values are
checked elementwise when `allowed_values` is truthy (not None, non-empty);
every other case falls to the `value not in allowed_values` test, in which
a missing (`None`) value is never a member. -/
def check_allowed (allowed : Option (List CfgValue))
    (v : Option CfgValue) : Except Unit (Option CfgValue) :=
  match allowed with
  | none => .ok v
  | some al =>
      let is_list_value :=
        match v with
        | some (.listStr _) => true
        | some (.listInt _) => true
        | _ => false
      if is_list_value && !al.isEmpty then
        match v with
        | some (.listStr l) =>
            if l.all (fun s => al.contains (.str s)) then .ok v else .error ()
        | some (.listInt l) =>
            if l.all (fun n => al.contains (.int n)) then .ok v else .error ()
        | _ => .ok v
      else
        match v with
        | some x => if al.contains x then .ok v else .error ()
        | none => .error ()

/-- util.get_config_option: resolve with default, reject required-and-
missing, convert string values, then filter by `allowed_values`.  `.error`
models raising the configuration error. -/
def get_config_option (options : List (String × CfgValue)) (key : String)
    (q : CfgQuery) : Except Unit (Option CfgValue) :=
  let value := lookup_value options key q.default
  if q.required && value.isNone then .error ()
  else
    match convert_value q.required_type q.allow_empty q.minimum q.maximum
        value with
    | .error e => .error e
    | .ok v2 => check_allowed q.allowed_values v2

/-- Claim C9, condition 1: the option is required and missing. -/
def c9_required_missing (options : List (String × CfgValue)) (key : String)
    (q : CfgQuery) : Bool :=
  q.required && (lookup_value options key q.default).isNone

/-- Claim C9, condition 2: the value fails to parse as the required type
(only string values are ever parsed, and only the int and list-of-int tags
can fail). -/
def c9_parse_failure (options : List (String × CfgValue)) (key : String)
    (q : CfgQuery) : Bool :=
  match lookup_value options key q.default with
  | some (.str s) =>
      (q.required_type == .int && (parseInt s).isNone)
        || (q.required_type == .listInt && (parseIntList s).isNone)
  | _ => false

/-- Claim C9, condition 3: a parsed numeric value is below the given
minimum or above the given maximum. -/
def c9_out_of_range (options : List (String × CfgValue)) (key : String)
    (q : CfgQuery) : Bool :=
  match lookup_value options key q.default with
  | some (.str s) =>
      q.required_type == .int
        && (match parseInt s with
            | some n => below_min q.minimum n || above_max q.maximum n
            | none => false)
  | _ => false

/-- Claim C9, condition 4: the (possibly type-converted) value is not among
`allowed_values` — elementwise for list values against a non-empty allowed
list, by plain membership otherwise, with a missing value never a member. -/
def c9_not_allowed (options : List (String × CfgValue)) (key : String)
    (q : CfgQuery) : Bool :=
  match q.allowed_values with
  | none => false
  | some al =>
      match convert_value q.required_type q.allow_empty q.minimum q.maximum
          (lookup_value options key q.default) with
      | .error _ => false
      | .ok v =>
          match v with
          | some (.listStr l) =>
              if !al.isEmpty then !(l.all (fun s => al.contains (.str s)))
              else !(al.contains (.listStr l))
          | some (.listInt l) =>
              if !al.isEmpty then !(l.all (fun n => al.contains (.int n)))
              else !(al.contains (.listInt l))
          | some x => !(al.contains x)
          | none => true

/-- Raise condition of claim C9 exactly as the claim states it: required-
and-missing, or parse failure, or out of range, or not among the allowed
values. -/
def c9_raises_as_stated (options : List (String × CfgValue)) (key : String)
    (q : CfgQuery) : Bool :=
  c9_required_missing options key q || c9_parse_failure options key q
    || c9_out_of_range options key q || c9_not_allowed options key q

/-- The extra raise reason the claim omits: an empty string value when the
required type is `str` and empty values are disallowed. -/
def c9_empty_rejected (options : List (String × CfgValue)) (key : String)
    (q : CfgQuery) : Bool :=
  (lookup_value options key q.default == some (.str ""))
    && q.required_type == .str && !q.allow_empty

/-- Raise condition of the amended claim C9: the four stated reasons plus
empty-string rejection. -/
def c9_raises_amended (options : List (String × CfgValue)) (key : String)
    (q : CfgQuery) : Bool :=
  c9_raises_as_stated options key q || c9_empty_rejected options key q

/-- Sentinel key for the tagged datetime wire form. -/
def DATETIME_MAGIC_TOKEN : String := "__simplemonitor_datetime"

/-- Sentinel key for the tagged MonitorState wire form. -/
def MONITORSTATE_MAGIC_TOKEN : String := "__simplemonitor_monitorstate"

/-- Symbolic name of a MonitorState member (`obj.name` in Python). -/
def MonitorState.name : MonitorState → String
  | .UNKNOWN => "UNKNOWN"
  | .SKIPPED => "SKIPPED"
  | .OK => "OK"
  | .FAILED => "FAILED"

/-- `MonitorState[s]`: look a member up by name; `none` models the KeyError
raised for an unknown name. -/
def MonitorState.fromName (s : String) : Option MonitorState :=
  if s = "UNKNOWN" then some .UNKNOWN
  else if s = "SKIPPED" then some .SKIPPED
  else if s = "OK" then some .OK
  else if s = "FAILED" then some .FAILED
  else none

/-- Gregorian leap-year test (as `calendar.isleap`). -/
def is_leap_year (y : Nat) : Bool :=
  (y % 4 == 0 && y % 100 != 0) || y % 400 == 0

/-- Number of days in a month of a given year. -/
def days_in_month (y month : Nat) : Nat :=
  if month == 2 then (if is_leap_year y then 29 else 28)
  else if month == 4 || month == 6 || month == 9 || month == 11 then 30
  else 31

/-- A Python `datetime.datetime` broken into its components. -/
structure DT where
  year : Nat
  month : Nat
  day : Nat
  hour : Nat
  minute : Nat
  second : Nat
  microsecond : Nat
deriving DecidableEq, Repr

/-- The range constraints every constructible Python datetime satisfies
(MINYEAR..MAXYEAR, real calendar dates, 24h clock, microsecond < 10^6).
`strptime` enforces exactly these when reconstructing a datetime. -/
def DT.valid (d : DT) : Prop :=
  1 ≤ d.year ∧ d.year ≤ 9999 ∧ 1 ≤ d.month ∧ d.month ≤ 12 ∧ 1 ≤ d.day ∧
  d.day ≤ days_in_month d.year d.month ∧ d.hour ≤ 23 ∧ d.minute ≤ 59 ∧
  d.second ≤ 59 ∧ d.microsecond ≤ 999999

instance (d : DT) : Decidable (DT.valid d) := by
  unfold DT.valid
  infer_instance

/-- ASCII digit character of `n % 10`. -/
def digitChar (n : Nat) : Char := Char.ofNat (48 + n % 10)

/-- `d.strftime("%Y-%m-%d %H:%M:%S.%f")`: zero-padded decimal fields —
4-digit year, 2-digit month/day/hour/minute/second, 6-digit microsecond. -/
def strftime_dt (d : DT) : String :=
  String.mk
    [digitChar (d.year / 1000), digitChar (d.year / 100),
     digitChar (d.year / 10), digitChar d.year,
     '-', digitChar (d.month / 10), digitChar d.month,
     '-', digitChar (d.day / 10), digitChar d.day,
     ' ', digitChar (d.hour / 10), digitChar d.hour,
     ':', digitChar (d.minute / 10), digitChar d.minute,
     ':', digitChar (d.second / 10), digitChar d.second,
     '.', digitChar (d.microsecond / 100000), digitChar (d.microsecond / 10000),
     digitChar (d.microsecond / 1000), digitChar (d.microsecond / 100),
     digitChar (d.microsecond / 10), digitChar d.microsecond]

/-- Numeric value of an ASCII digit character, if it is one. -/
def digit? (c : Char) : Option Nat :=
  if c.isDigit then some (c.toNat - 48) else none

/-- Decimal value of a run of digit characters (none if any is not a
digit). -/
def readDigits (cs : List Char) : Option Nat :=
  cs.foldl
    (fun acc c =>
      match acc, digit? c with
      | some a, some d => some (a * 10 + d)
      | _, _ => none)
    (some 0)

/-- `datetime.datetime.strptime(s, "%Y-%m-%d %H:%M:%S.%f")` on the strings
the decoder can feed it: the string must be exactly the 26-character layout
(anything longer leaves unconverted data and raises → `none`), its numeric
fields must form a constructible datetime. -/
def strptime_dt (s : String) : Option DT :=
  match s.toList with
  | [y1, y2, y3, y4, p1, mo1, mo2, p2, d1, d2, p3, h1, h2, p4,
     mi1, mi2, p5, se1, se2, p6, u1, u2, u3, u4, u5, u6] =>
      if p1 = '-' ∧ p2 = '-' ∧ p3 = ' ' ∧ p4 = ':' ∧ p5 = ':' ∧ p6 = '.' then
        match readDigits [y1, y2, y3, y4], readDigits [mo1, mo2],
            readDigits [d1, d2], readDigits [h1, h2], readDigits [mi1, mi2],
            readDigits [se1, se2], readDigits [u1, u2, u3, u4, u5, u6] with
        | some y, some mo, some da, some h, some mi, some se, some us =>
            if DT.valid ⟨y, mo, da, h, mi, se, us⟩ then
              some ⟨y, mo, da, h, mi, se, us⟩
            else none
        | _, _, _, _, _, _, _ => none
      else none
  | _ => none

/-- JSONDecoder._datetime_re `.match`: the first 26 characters exist and
follow `dddd-dd-dd dd:dd:dd.dddddd` (re.match is anchored at the start
only, so trailing characters are allowed). -/
def datetime_regex_match (s : String) : Bool :=
  match s.toList with
  | y1 :: y2 :: y3 :: y4 :: p1 :: mo1 :: mo2 :: p2 :: d1 :: d2 :: p3 ::
      h1 :: h2 :: p4 :: mi1 :: mi2 :: p5 :: se1 :: se2 :: p6 ::
      u1 :: u2 :: u3 :: u4 :: u5 :: u6 :: _ =>
      y1.isDigit && y2.isDigit && y3.isDigit && y4.isDigit && p1 == '-'
        && mo1.isDigit && mo2.isDigit && p2 == '-' && d1.isDigit && d2.isDigit
        && p3 == ' ' && h1.isDigit && h2.isDigit && p4 == ':' && mi1.isDigit
        && mi2.isDigit && p5 == ':' && se1.isDigit && se2.isDigit && p6 == '.'
        && u1.isDigit && u2.isDigit && u3.isDigit && u4.isDigit && u5.isDigit
        && u6.isDigit
  | _ => false

/-- Python values flowing through json_dumps/json_loads: JSON primitives
and containers plus the two non-JSON types the codec special-cases. -/
inductive PyValue where
  | none
  | bool (b : Bool)
  | int (n : Int)
  | str (s : String)
  | list (items : List PyValue)
  | dict (pairs : List (String × PyValue))
  | datetime (d : DT)
  | monitorstate (st : MonitorState)

/-- The JSON wire document (the text layer of the json module is assumed to
round-trip this tree faithfully). -/
inductive JValue where
  | null
  | bool (b : Bool)
  | int (n : Int)
  | str (s : String)
  | arr (items : List JValue)
  | obj (pairs : List (String × JValue))

mutual

/-- json_dumps with util.JSONEncoder: datetimes become the tagged
fixed-format string, MonitorState members the tagged symbolic name. -/
def encode_value : PyValue → JValue
  | .none => .null
  | .bool b => .bool b
  | .int n => .int n
  | .str s => .str s
  | .list items => .arr (encode_list items)
  | .dict pairs => .obj (encode_pairs pairs)
  | .datetime d => .obj [(DATETIME_MAGIC_TOKEN, .str (strftime_dt d))]
  | .monitorstate st => .obj [(MONITORSTATE_MAGIC_TOKEN, .str st.name)]

/-- Encode the elements of a Python list. -/
def encode_list : List PyValue → List JValue
  | [] => []
  | x :: xs => encode_value x :: encode_list xs

/-- Encode the entries of a Python dict. -/
def encode_pairs : List (String × PyValue) → List (String × JValue)
  | [] => []
  | (k, x) :: xs => (k, encode_value x) :: encode_pairs xs

end

/-- util.JSONDecoder.object_pairs_hook (with no user hook installed): a
single-entry mapping whose key is a magic token and whose value is a string
is turned back into a datetime (after the regex gate, `none` modelling the
ValueError of an unparseable or invalid timestamp) or a MonitorState
(`none` modelling the KeyError of an unknown member name); everything else
becomes a plain dict. -/
def object_pairs_hook (pairs : List (String × PyValue)) : Option PyValue :=
  match pairs with
  | [(k, PyValue.str s)] =>
      if k = DATETIME_MAGIC_TOKEN ∧ datetime_regex_match s then
        (strptime_dt s).map PyValue.datetime
      else if k = MONITORSTATE_MAGIC_TOKEN then
        (MonitorState.fromName s).map PyValue.monitorstate
      else some (.dict [(k, PyValue.str s)])
  | ps => some (.dict ps)

mutual

/-- json_loads with util.JSONDecoder: decode bottom-up, applying
`object_pairs_hook` to every decoded object. -/
def decode_value : JValue → Option PyValue
  | .null => some .none
  | .bool b => some (.bool b)
  | .int n => some (.int n)
  | .str s => some (.str s)
  | .arr items => (decode_list items).map PyValue.list
  | .obj pairs =>
      match decode_pairs pairs with
      | some ps => object_pairs_hook ps
      | Option.none => Option.none

/-- Decode the elements of a JSON array. -/
def decode_list : List JValue → Option (List PyValue)
  | [] => some []
  | x :: xs =>
      match decode_value x, decode_list xs with
      | some v, some vs => some (v :: vs)
      | _, _ => Option.none

/-- Decode the entries of a JSON object. -/
def decode_pairs : List (String × JValue) → Option (List (String × PyValue))
  | [] => some []
  | (k, x) :: xs =>
      match decode_value x, decode_pairs xs with
      | some v, some vs => some ((k, v) :: vs)
      | _, _ => Option.none

end

/-- The two reserved tag shapes of the decoder, on an already-decoded
single-entry mapping: the datetime token with a regex-matching string, or
the MonitorState token with any string. -/
def is_tag_shape (k : String) (w : PyValue) : Prop :=
  (k = DATETIME_MAGIC_TOKEN
      ∧ ∃ s, w = PyValue.str s ∧ datetime_regex_match s = true)
    ∨ (k = MONITORSTATE_MAGIC_TOKEN ∧ ∃ s, w = PyValue.str s)

/-! Helper lemmas: closed forms of the three record operations. -/

theorem add_unavailable_seconds_eq (now : Nat) (m : Monitor) :
    add_unavailable_seconds now m =
      { m with unavailable_seconds := m.unavailable_seconds +
          unavailable_delta now m.last_update m.success_count } := by
  cases m with
  | mk tol gap rc rcd lr ec fa sc tr lec sd fl lf us lu uas ri rdi st fr lrn =>
      cases lu with
      | none => rfl
      | some t =>
          by_cases hs : sc = 0 <;>
            simp [add_unavailable_seconds, unavailable_delta, hs]

theorem record_fail_eq (message : String) (now : Nat) (m : Monitor) :
    record_fail message now m =
      ({ m with
          error_count := m.error_count + 1,
          unavailable_seconds := m.unavailable_seconds +
            unavailable_delta now m.last_update m.success_count,
          last_update := some now,
          last_result := message,
          failed_at := if fail_crossed m then some now else m.failed_at,
          last_failure := if fail_crossed m then some now else m.last_failure,
          failures := if fail_crossed m then m.failures + 1 else m.failures,
          state := if fail_crossed m then MonitorState.FAILED else m.state,
          success_count := 0,
          tests_run := m.tests_run + 1,
          uptime_start := none }, false) := by
  unfold record_fail fail_crossed
  simp only [add_unavailable_seconds_eq, virtual_fail_count]
  split <;> rfl

theorem record_success_eq (message : String) (now : Nat) (m : Monitor) :
    record_success message now m =
      ({ m with
          last_error_count :=
            if m.error_count > 0 then m.error_count else m.last_error_count,
          uptime_start :=
            if m.uptime_start = none then some now else m.uptime_start,
          unavailable_seconds := m.unavailable_seconds +
            unavailable_delta now m.last_update m.success_count,
          state := MonitorState.OK,
          error_count := 0,
          last_update := some now,
          success_count := m.success_count + 1,
          tests_run := m.tests_run + 1,
          last_result := message }, true) := by
  unfold record_success
  by_cases h1 : m.error_count > 0 <;> by_cases h2 : m.uptime_start = none <;>
    simp [h1, h2, add_unavailable_seconds_eq]

theorem record_skip_none_eq (now : Nat) (m : Monitor) :
    record_skip none now m = ({ m with state := MonitorState.SKIPPED }, true) :=
  rfl

theorem record_skip_some_eq (dep : String) (now : Nat) (m : Monitor) :
    record_skip (some dep) now m =
      ({ (record_success "" now m).1 with
          skip_dep := some dep, state := MonitorState.SKIPPED }, true) :=
  rfl

theorem record_fail_fst_error_count (message : String) (now : Nat)
    (m : Monitor) :
    ((record_fail message now m).1).error_count = m.error_count + 1 := by
  rw [record_fail_eq]

theorem record_fail_fst_tolerance (message : String) (now : Nat)
    (m : Monitor) :
    ((record_fail message now m).1).tolerance = m.tolerance := by
  rw [record_fail_eq]

theorem record_fail_fst_success_count (message : String) (now : Nat)
    (m : Monitor) :
    ((record_fail message now m).1).success_count = 0 := by
  rw [record_fail_eq]

theorem record_fail_fst_last_error_count (message : String) (now : Nat)
    (m : Monitor) :
    ((record_fail message now m).1).last_error_count = m.last_error_count := by
  rw [record_fail_eq]

theorem record_success_fst_error_count (message : String) (now : Nat)
    (m : Monitor) :
    ((record_success message now m).1).error_count = 0 := by
  rw [record_success_eq]

theorem record_success_fst_tolerance (message : String) (now : Nat)
    (m : Monitor) :
    ((record_success message now m).1).tolerance = m.tolerance := by
  rw [record_success_eq]

theorem record_success_fst_success_count (message : String) (now : Nat)
    (m : Monitor) :
    ((record_success message now m).1).success_count =
      m.success_count + 1 := by
  rw [record_success_eq]

theorem record_success_fst_state (message : String) (now : Nat)
    (m : Monitor) :
    ((record_success message now m).1).state = MonitorState.OK := by
  rw [record_success_eq]

theorem record_success_fst_last_error_count (message : String) (now : Nat)
    (m : Monitor) :
    ((record_success message now m).1).last_error_count =
      if m.error_count > 0 then m.error_count else m.last_error_count := by
  rw [record_success_eq]

/-- C1: for every monitor, `virtual_fail_count()` equals
`max(errorCount - tolerance, 0)`, `test_success()` holds iff the virtual
fail count is zero, and `first_failure()` holds exactly when
`errorCount = tolerance + 1`; for tolerance 2 and a fresh error counter,
the first two consecutive `record_fail` calls leave the virtual fail count
at 0, the third raises it to 1, and `first_failure()` is true only on that
third consecutive failure — false before and after. -/
theorem claim_C1_tolerance_counting :
    (∀ m : Monitor,
        virtual_fail_count m =
            max ((m.error_count : Int) - (m.tolerance : Int)) 0
          ∧ (test_success m = true ↔ virtual_fail_count m = 0)
          ∧ (first_failure m = true ↔ m.error_count = m.tolerance + 1))
    ∧ (∀ (m m1 m2 m3 m4 : Monitor) (msg1 msg2 msg3 msg4 : String)
          (t1 t2 t3 t4 : Nat),
        m.tolerance = 2 → m.error_count = 0 →
        m1 = (record_fail msg1 t1 m).1 →
        m2 = (record_fail msg2 t2 m1).1 →
        m3 = (record_fail msg3 t3 m2).1 →
        m4 = (record_fail msg4 t4 m3).1 →
        virtual_fail_count m1 = 0 ∧ virtual_fail_count m2 = 0 ∧
          virtual_fail_count m3 = 1 ∧ test_success m1 = true ∧
          test_success m2 = true ∧ test_success m3 = false ∧
          first_failure m1 = false ∧ first_failure m2 = false ∧
          first_failure m3 = true ∧ first_failure m4 = false) := by
  constructor
  · intro m
    refine ⟨rfl, ?_, ?_⟩
    · simp [test_success, beq_iff_eq]
    · simp [first_failure, beq_iff_eq]
  · intro m m1 m2 m3 m4 msg1 msg2 msg3 msg4 t1 t2 t3 t4 htol hec h1 h2 h3 h4
    subst h1; subst h2; subst h3; subst h4
    simp only [virtual_fail_count, test_success, first_failure,
      record_fail_fst_error_count, record_fail_fst_tolerance, htol, hec,
      beq_iff_eq, beq_eq_false_iff_ne]
    exact ⟨by omega, by omega, by omega, by omega, by omega, by omega,
      by omega, by omega, trivial, by omega⟩

theorem claim_C1_tolerance_counting_witness :
    virtual_fail_count
        (record_fail "f" 3 (record_fail "f" 2 (record_fail "f" 1
          (Monitor.initial 2 0 none none)).1).1).1 = 1 ∧
      first_failure
        (record_fail "f" 3 (record_fail "f" 2 (record_fail "f" 1
          (Monitor.initial 2 0 none none)).1).1).1 = true := by
  have h := claim_C1_tolerance_counting.2 (Monitor.initial 2 0 none none)
    _ _ _ _ "f" "f" "f" "f" 1 2 3 4 rfl rfl rfl rfl rfl rfl
  exact ⟨h.2.2.1, h.2.2.2.2.2.2.2.2.1⟩

/-- C2: `should_run(now)` follows the five-step gate — forced run consumes
the flag, stamps and returns true; zero gap always stamps and returns true;
a positive error count always stamps and returns true; an absent prior run
timestamp stamps and returns true; otherwise it runs iff the elapsed time
reaches the gap — and it mutates `last_run`/`force_run` only on calls that
return true.  With gap 10 and no errors, two calls 3 seconds apart yield
true then false; with errors pending, every call returns true. -/
theorem claim_C2_should_run_gate :
    (∀ (now : Nat) (m : Monitor), m.force_run = true →
        should_run now m =
          ({ m with force_run := false, last_run := now }, true))
    ∧ (∀ (now : Nat) (m : Monitor), m.force_run = false →
        m.minimum_gap = 0 →
        should_run now m = ({ m with last_run := now }, true))
    ∧ (∀ (now : Nat) (m : Monitor), m.force_run = false →
        m.minimum_gap ≠ 0 → 0 < m.error_count →
        should_run now m = ({ m with last_run := now }, true))
    ∧ (∀ (now : Nat) (m : Monitor), m.force_run = false →
        m.minimum_gap ≠ 0 → m.error_count = 0 → m.last_run = 0 →
        should_run now m = ({ m with last_run := now }, true))
    ∧ (∀ (now : Nat) (m : Monitor), m.force_run = false →
        m.minimum_gap ≠ 0 → m.error_count = 0 → m.last_run ≠ 0 →
        should_run now m =
          if (m.minimum_gap : Int) ≤ (now : Int) - (m.last_run : Int) then
            ({ m with last_run := now }, true)
          else (m, false))
    ∧ (∀ (now : Nat) (m : Monitor),
        (should_run now m).2 = false → (should_run now m).1 = m)
    ∧ (∀ (now : Nat) (m : Monitor), 0 < m.error_count →
        (should_run now m).2 = true)
    ∧ (∀ (t : Nat) (m : Monitor), 0 < t → m.force_run = false →
        m.minimum_gap = 10 → m.error_count = 0 → m.last_run = 0 →
        (should_run t m).2 = true ∧
          (should_run (t + 3) (should_run t m).1).2 = false) := by
  refine ⟨?_, ?_, ?_, ?_, ?_, ?_, ?_, ?_⟩
  · intro now m h; simp [should_run, h]
  · intro now m h1 h2; simp [should_run, h1, h2]
  · intro now m h1 h2 h3; simp [should_run, h1, h2, h3]
  · intro now m h1 h2 h3 h4; simp [should_run, h1, h2, h3, h4]
  · intro now m h1 h2 h3 h4; simp [should_run, h1, h2, h3, h4]
  · intro now m
    unfold should_run
    split_ifs <;> simp
  · intro now m h
    unfold should_run
    split_ifs <;> simp_all
  · intro t m ht h1 h2 h3 h4
    have hfirst : should_run t m = ({ m with last_run := t }, true) := by
      simp [should_run, h1, h2, h3, h4]
    refine ⟨by rw [hfirst], ?_⟩
    rw [hfirst]
    unfold should_run
    rw [if_neg (by simp [h1]), if_neg (by simp [h2]), if_neg (by simp [h3]),
      if_neg (by show ¬(t = 0); omega),
      if_neg (by show ¬((((t + 3 : Nat)) : Int) - ((t : Nat) : Int) ≥
        ((m.minimum_gap : Nat) : Int)); omega)]

theorem claim_C2_should_run_gate_witness :
    (should_run 100
        { Monitor.initial 0 10 none none with force_run := false }).2 =
        true ∧
      (should_run 103 (should_run 100
        { Monitor.initial 0 10 none none with force_run := false }).1).2 =
        false := by
  exact (claim_C2_should_run_gate.2.2.2.2.2.2.2 100
    { Monitor.initial 0 10 none none with force_run := false }
    (by decide) rfl rfl rfl rfl)

/-- C10: `record_skip(None)` only sets the state to SKIPPED and returns
true; error count, success count, tests-run counter, last-update stamp and
remembered skip dependency all keep their prior values. -/
theorem claim_C10_record_skip_no_dep :
    ∀ (now : Nat) (m : Monitor),
      record_skip none now m =
          ({ m with state := MonitorState.SKIPPED }, true)
        ∧ (record_skip none now m).1.error_count = m.error_count
        ∧ (record_skip none now m).1.success_count = m.success_count
        ∧ (record_skip none now m).1.tests_run = m.tests_run
        ∧ (record_skip none now m).1.last_update = m.last_update
        ∧ (record_skip none now m).1.skip_dep = m.skip_dep
        ∧ (record_skip none now m).2 = true := by
  intro now m
  exact ⟨rfl, rfl, rfl, rfl, rfl, rfl, rfl⟩

/-- C4: `record_skip(dep)` with a dependency name performs the full
`record_success` bookkeeping (error count reset, success and tests-run
counters bumped, last-update stamped, state set Ok by that inner call),
remembers the dependency in `skip_dep`, then unconditionally sets the state
to SKIPPED and returns true. -/
theorem claim_C4_record_skip_dep :
    ∀ (dep : String) (now : Nat) (m : Monitor),
      record_skip (some dep) now m =
          ({ (record_success "" now m).1 with
              skip_dep := some dep, state := MonitorState.SKIPPED }, true)
        ∧ (record_skip (some dep) now m).1.error_count = 0
        ∧ (record_skip (some dep) now m).1.success_count =
            m.success_count + 1
        ∧ (record_skip (some dep) now m).1.tests_run = m.tests_run + 1
        ∧ (record_skip (some dep) now m).1.last_update = some now
        ∧ (record_skip (some dep) now m).1.skip_dep = some dep
        ∧ (record_skip (some dep) now m).1.state = MonitorState.SKIPPED
        ∧ (record_success "" now m).1.state = MonitorState.OK
        ∧ (record_skip (some dep) now m).2 = true := by
  intro dep now m
  refine ⟨rfl, ?_, ?_, ?_, ?_, rfl, rfl, record_success_fst_state _ _ _, rfl⟩
  · show ((record_success "" now m).1).error_count = 0
    exact record_success_fst_error_count _ _ _
  · show ((record_success "" now m).1).success_count = m.success_count + 1
    exact record_success_fst_success_count _ _ _
  · show ((record_success "" now m).1).tests_run = m.tests_run + 1
    rw [record_success_eq]
  · show ((record_success "" now m).1).last_update = some now
    rw [record_success_eq]

/-- C5: `all_better_now()` holds iff the previous streak's virtual fail
count (from `last_error_count`) is positive, the current success count is
exactly 1, and the state is not SKIPPED; for tolerance 2, three failures
followed by a success make it true on that first success tick only, and
false again on the second consecutive success. -/
theorem claim_C5_recovery_edge :
    (∀ m : Monitor,
        (all_better_now m = true ↔
          0 < last_virtual_fail_count m ∧ m.success_count = 1 ∧
            m.state ≠ MonitorState.SKIPPED)
        ∧ last_virtual_fail_count m =
            max ((m.last_error_count : Int) - (m.tolerance : Int)) 0)
    ∧ (∀ (m m1 m2 m3 m4 m5 : Monitor) (msg : String) (t1 t2 t3 t4 t5 : Nat),
        m.tolerance = 2 → m.error_count = 0 →
        m1 = (record_fail msg t1 m).1 →
        m2 = (record_fail msg t2 m1).1 →
        m3 = (record_fail msg t3 m2).1 →
        m4 = (record_success msg t4 m3).1 →
        m5 = (record_success msg t5 m4).1 →
        all_better_now m4 = true ∧ all_better_now m5 = false) := by
  constructor
  · intro m
    constructor
    · have hnn : 0 ≤ last_virtual_fail_count m := by
        unfold last_virtual_fail_count
        exact le_max_left _ _
      simp only [all_better_now, Bool.and_eq_true, bne_iff_ne, beq_iff_eq,
        Bool.not_eq_eq_eq_not, Bool.not_true, beq_eq_false_iff_ne]
      constructor
      · rintro ⟨⟨hne, hsc⟩, hst⟩
        exact ⟨by omega, hsc, hst⟩
      · rintro ⟨hpos, hsc, hst⟩
        exact ⟨⟨by omega, hsc⟩, hst⟩
    · unfold last_virtual_fail_count
      exact max_comm _ _
  · intro m m1 m2 m3 m4 m5 msg t1 t2 t3 t4 t5 htol hec h1 h2 h3 h4 h5
    subst h1; subst h2; subst h3; subst h4; subst h5
    simp only [all_better_now, last_virtual_fail_count,
      record_fail_fst_error_count, record_fail_fst_tolerance,
      record_fail_fst_success_count, record_fail_fst_last_error_count,
      record_success_fst_error_count, record_success_fst_tolerance,
      record_success_fst_success_count, record_success_fst_state,
      record_success_fst_last_error_count, htol, hec]
    constructor
    · simp
    · simp

theorem claim_C5_recovery_edge_witness :
    all_better_now
        (record_success "f" 4 (record_fail "f" 3 (record_fail "f" 2
          (record_fail "f" 1 (Monitor.initial 2 0 none none)).1).1).1).1 =
        true ∧
      all_better_now
        (record_success "f" 5 (record_success "f" 4 (record_fail "f" 3
          (record_fail "f" 2 (record_fail "f" 1
            (Monitor.initial 2 0 none none)).1).1).1).1).1 = false := by
  exact claim_C5_recovery_edge.2 (Monitor.initial 2 0 none none)
    _ _ _ _ _ "f" 1 2 3 4 5 rfl rfl rfl rfl rfl rfl rfl

theorem state_invariant_initial (tol gap : Nat) (rc rcd : Option String) :
    state_invariant (Monitor.initial tol gap rc rcd) := by
  constructor
  · intro _
    right; right; rfl
  · intro h
    exact absurd h (by simp [Monitor.initial])

theorem state_invariant_apply_op (m : Monitor) (op : MOp)
    (h : state_invariant m) : state_invariant (apply_op m op) := by
  obtain ⟨hzero, hfailed⟩ := h
  cases op with
  | fail msg now =>
      show state_invariant (record_fail msg now m).1
      rw [record_fail_eq]
      constructor
      · intro h0
        simp at h0
      · intro hf
        show m.tolerance < m.error_count + 1
        by_cases hc : fail_crossed m
        · unfold fail_crossed virtual_fail_count at hc
          simp only [beq_iff_eq] at hc
          omega
        · rw [show ({ m with
              error_count := m.error_count + 1,
              unavailable_seconds := m.unavailable_seconds +
                unavailable_delta now m.last_update m.success_count,
              last_update := some now,
              last_result := msg,
              failed_at := if fail_crossed m then some now else m.failed_at,
              last_failure :=
                if fail_crossed m then some now else m.last_failure,
              failures :=
                if fail_crossed m then m.failures + 1 else m.failures,
              state :=
                if fail_crossed m then MonitorState.FAILED else m.state,
              success_count := 0,
              tests_run := m.tests_run + 1,
              uptime_start := none } : Monitor).state =
              if fail_crossed m then MonitorState.FAILED else m.state
            from rfl, if_neg hc] at hf
          exact Nat.lt_succ_of_lt (hfailed hf)
  | success msg now =>
      show state_invariant (record_success msg now m).1
      rw [record_success_eq]
      constructor
      · intro _
        left; rfl
      · intro hf
        simp at hf
  | skip d now =>
      cases d with
      | none =>
          show state_invariant (record_skip none now m).1
          rw [record_skip_none_eq]
          exact ⟨fun _ => Or.inr (Or.inl rfl), fun hf => by simp at hf⟩
      | some dep =>
          show state_invariant (record_skip (some dep) now m).1
          rw [record_skip_some_eq]
          exact ⟨fun _ => Or.inr (Or.inl rfl), fun hf => by simp at hf⟩

theorem state_invariant_apply_ops (ops : List MOp) :
    ∀ m : Monitor, state_invariant m → state_invariant (apply_ops m ops) := by
  induction ops with
  | nil => intro m h; exact h
  | cons op rest ih =>
      intro m h
      exact ih _ (state_invariant_apply_op m op h)

/-- C6: `errorCount = 0` implies the state is Ok, Skipped or Unknown
(never Failed); the invariant — together with its inductive strengthening
that Failed is displayed only while `errorCount` exceeds the tolerance —
holds in the freshly constructed state and is preserved by `record_fail`,
`record_success` and `record_skip` applied in any order, and the
operations that reset `errorCount` to 0 also move the state out of
Failed. -/
theorem claim_C6_zero_error_state :
    (∀ (tol gap : Nat) (rc rcd : Option String),
        state_invariant (Monitor.initial tol gap rc rcd))
    ∧ (∀ (m : Monitor) (op : MOp), state_invariant m →
        state_invariant (apply_op m op))
    ∧ (∀ (tol gap : Nat) (rc rcd : Option String) (ops : List MOp),
        state_invariant (apply_ops (Monitor.initial tol gap rc rcd) ops))
    ∧ (∀ m : Monitor, state_invariant m → m.error_count = 0 →
        m.state = MonitorState.OK ∨ m.state = MonitorState.SKIPPED ∨
          m.state = MonitorState.UNKNOWN)
    ∧ (∀ (m : Monitor) (msg : String) (now : Nat),
        (record_success msg now m).1.error_count = 0 ∧
          (record_success msg now m).1.state ≠ MonitorState.FAILED)
    ∧ (∀ (m : Monitor) (d : Option String) (now : Nat),
        (record_skip d now m).1.state ≠ MonitorState.FAILED) := by
  refine ⟨state_invariant_initial, state_invariant_apply_op,
    ?_, ?_, ?_, ?_⟩
  · intro tol gap rc rcd ops
    exact state_invariant_apply_ops ops _ (state_invariant_initial _ _ _ _)
  · intro m h h0
    exact h.1 h0
  · intro m msg now
    rw [record_success_eq]
    exact ⟨rfl, by simp⟩
  · intro m d now
    cases d with
    | none => rw [record_skip_none_eq]; simp
    | some dep => rw [record_skip_some_eq]; simp

theorem claim_C6_zero_error_state_witness :
    state_invariant (apply_op (Monitor.initial 1 2 none none)
      (MOp.fail "boom" 5)) :=
  claim_C6_zero_error_state.2.1 (Monitor.initial 1 2 none none)
    (MOp.fail "boom" 5) (state_invariant_initial 1 2 none none)

/-- C7: at a within-day duration of exactly 3600 seconds the code skips
the hour division (strict `>` instead of `>=`) and instead divides by 60,
yielding 60 minutes and the rendering "0+00:60:00" where the claimed
decomposition (hours = seconds div 3600, ...) demands 1 hour and
"0+01:00:00"; the claimed example of 1 day, 2 hours, 3 minutes, 4 seconds
does format as "1+02:03:04". -/
theorem claim_C7_from_timedelta_boundary :
    UpDownTime.from_timedelta ⟨0, 3600⟩ =
        { days := 0, hours := 0, minutes := 60, seconds := 0 } ∧
      (UpDownTime.from_timedelta ⟨0, 3600⟩).toStr = "0+00:60:00" ∧
      (3600 : Nat) / 3600 = 1 ∧
      UpDownTime.from_timedelta ⟨1, 7384⟩ =
        { days := 1, hours := 2, minutes := 3, seconds := 4 } ∧
      (UpDownTime.from_timedelta ⟨1, 7384⟩).toStr = "1+02:03:04" := by
  refine ⟨?_, ?_, ?_, ?_, ?_⟩ <;> rfl

/-- C8 counterexample: with no recover command configured,
`attempt_recover` is not a no-op on every field — it overwrites a
non-empty `recover_info` with the empty string. -/
theorem claim_C8_counterexample :
    ({ Monitor.initial 0 0 none none with
        recover_info := "x" } : Monitor).recover_command = none ∧
      attempt_recover (HookOutcome.exited 0)
          { Monitor.initial 0 0 none none with recover_info := "x" } ≠
        { Monitor.initial 0 0 none none with recover_info := "x" } := by
  constructor
  · rfl
  · intro h
    have h2 := congrArg Monitor.recover_info h
    simp [attempt_recover, Monitor.initial] at h2

/-- C8 (amended): `attempt_recover` leaves the monitor unchanged whenever
a recover command is configured and `first_failure()` is false; when no
recover command is configured it sets `recover_info` to the empty string
and leaves every other field unchanged (hence a strict no-op only when
`recover_info` is already empty); `run_recovered` behaves the same with
`recovered_command`, `recovered_info` and `all_better_now()`. -/
theorem claim_C8_hooks_noop :
    (∀ (o : HookOutcome) (m : Monitor), m.recover_command ≠ none →
        first_failure m = false → attempt_recover o m = m)
    ∧ (∀ (o : HookOutcome) (m : Monitor), m.recover_command = none →
        attempt_recover o m = { m with recover_info := "" })
    ∧ (∀ (o : HookOutcome) (m : Monitor), m.recovered_command ≠ none →
        all_better_now m = false → run_recovered o m = m)
    ∧ (∀ (o : HookOutcome) (m : Monitor), m.recovered_command = none →
        run_recovered o m = { m with recovered_info := "" }) := by
  refine ⟨?_, ?_, ?_, ?_⟩
  · intro o m hc hff
    unfold attempt_recover
    cases h : m.recover_command with
    | none => exact absurd h hc
    | some c => simp [hff]
  · intro o m hc
    unfold attempt_recover
    rw [hc]
  · intro o m hc habn
    unfold run_recovered
    cases h : m.recovered_command with
    | none => exact absurd h hc
    | some c => simp [habn]
  · intro o m hc
    unfold run_recovered
    rw [hc]

theorem claim_C8_hooks_noop_witness :
    first_failure { Monitor.initial 1 0 (some "reboot") none with
        error_count := 0 } = false ∧
      attempt_recover (HookOutcome.exited 0)
          { Monitor.initial 1 0 (some "reboot") none with
            error_count := 0 } =
        { Monitor.initial 1 0 (some "reboot") none with error_count := 0 } := by
  constructor
  · rfl
  · exact claim_C8_hooks_noop.1 (HookOutcome.exited 0)
      { Monitor.initial 1 0 (some "reboot") none with error_count := 0 }
      (by simp [Monitor.initial]) rfl

/-! Helper lemmas for the state-transfer codec round trip. -/

theorem digitq_digitChar (n : Nat) : digit? (digitChar n) = some (n % 10) := by
  have h : n % 10 < 10 := Nat.mod_lt _ (by norm_num)
  unfold digit? digitChar
  revert h
  generalize n % 10 = d
  intro h
  interval_cases d <;> decide

theorem isDigit_digitChar (n : Nat) : (digitChar n).isDigit = true := by
  have h : n % 10 < 10 := Nat.mod_lt _ (by norm_num)
  unfold digitChar
  revert h
  generalize n % 10 = d
  intro h
  interval_cases d <;> decide

theorem readDigits_two (a : Nat) (ha : a < 100) :
    readDigits [digitChar (a / 10), digitChar a] = some a := by
  unfold readDigits
  simp [List.foldl, digitq_digitChar]
  omega

theorem readDigits_four (a : Nat) (ha : a < 10000) :
    readDigits [digitChar (a / 1000), digitChar (a / 100),
      digitChar (a / 10), digitChar a] = some a := by
  unfold readDigits
  simp [List.foldl, digitq_digitChar]
  omega

theorem readDigits_six (a : Nat) (ha : a < 1000000) :
    readDigits [digitChar (a / 100000), digitChar (a / 10000),
      digitChar (a / 1000), digitChar (a / 100),
      digitChar (a / 10), digitChar a] = some a := by
  unfold readDigits
  simp [List.foldl, digitq_digitChar]
  omega

theorem days_in_month_le (y month : Nat) : days_in_month y month ≤ 31 := by
  unfold days_in_month
  split
  · split <;> omega
  · split <;> omega

theorem datetime_regex_match_strftime (d : DT) :
    datetime_regex_match (strftime_dt d) = true := by
  unfold datetime_regex_match strftime_dt
  simp [String.toList, isDigit_digitChar]

theorem strptime_strftime (d : DT) (hv : DT.valid d) :
    strptime_dt (strftime_dt d) = some d := by
  obtain ⟨h1, h2, h3, h4, h5, h6, h7, h8, h9, h10⟩ := hv
  have hdm : days_in_month d.year d.month ≤ 31 := days_in_month_le _ _
  unfold strftime_dt strptime_dt
  simp only [String.toList]
  rw [if_pos (⟨trivial, trivial, trivial, trivial, trivial, trivial⟩ :
    True ∧ True ∧ True ∧ True ∧ True ∧ True)]
  rw [readDigits_four d.year (by omega), readDigits_two d.month (by omega),
    readDigits_two d.day (by omega), readDigits_two d.hour (by omega),
    readDigits_two d.minute (by omega), readDigits_two d.second (by omega),
    readDigits_six d.microsecond (by omega)]
  show (if DT.valid ⟨d.year, d.month, d.day, d.hour, d.minute, d.second,
      d.microsecond⟩ then
    some (⟨d.year, d.month, d.day, d.hour, d.minute, d.second,
      d.microsecond⟩ : DT) else none) = some d
  rw [if_pos (show DT.valid ⟨d.year, d.month, d.day, d.hour, d.minute,
    d.second, d.microsecond⟩ by
      exact ⟨h1, h2, h3, h4, h5, h6, h7, h8, h9, h10⟩)]

theorem decode_encode_datetime (d : DT) (h : DT.valid d) :
    decode_value (encode_value (.datetime d)) = some (.datetime d) := by
  simp only [encode_value, decode_value, decode_pairs]
  unfold object_pairs_hook
  dsimp only
  rw [if_pos (⟨rfl, datetime_regex_match_strftime d⟩ :
    DATETIME_MAGIC_TOKEN = DATETIME_MAGIC_TOKEN ∧
      datetime_regex_match (strftime_dt d) = true)]
  rw [strptime_strftime d h]
  rfl

theorem decode_encode_monitorstate (st : MonitorState) :
    decode_value (encode_value (.monitorstate st)) =
      some (.monitorstate st) := by
  simp only [encode_value, decode_value, decode_pairs]
  unfold object_pairs_hook
  dsimp only
  rw [if_neg (fun hcontra : MONITORSTATE_MAGIC_TOKEN = DATETIME_MAGIC_TOKEN ∧
        datetime_regex_match st.name = true =>
      absurd hcontra.1 (by decide)), if_pos rfl]
  cases st <;> rfl

theorem decode_obj_plain_pair (k : String) (v : JValue) (w : PyValue)
    (hw : decode_value v = some w) (hshape : ¬ is_tag_shape k w) :
    decode_value (JValue.obj [(k, v)]) = some (PyValue.dict [(k, w)]) := by
  simp only [decode_value, decode_pairs, hw]
  cases w with
  | str s =>
      unfold object_pairs_hook
      dsimp only
      rw [if_neg (fun hc : k = DATETIME_MAGIC_TOKEN ∧
            datetime_regex_match s = true =>
          hshape (Or.inl ⟨hc.1, s, rfl, hc.2⟩)),
        if_neg (fun hk : k = MONITORSTATE_MAGIC_TOKEN =>
          hshape (Or.inr ⟨hk, s, rfl⟩))]
  | none => rfl
  | bool b => rfl
  | int n => rfl
  | list l => rfl
  | dict ps => rfl
  | datetime dd => rfl
  | monitorstate ss => rfl

/-- C3: the state-transfer codec round-trips — every constructible
datetime encodes to the tagged fixed-format form and decodes back to the
same datetime to microsecond precision; every MonitorState member encodes
to its tagged symbolic name and decodes back to the same member; and a
single-entry mapping that does not match either reserved tag shape decodes
as a plain mapping, unchanged. -/
theorem claim_C3_codec_roundtrip :
    (∀ d : DT, DT.valid d →
        encode_value (.datetime d) =
            .obj [(DATETIME_MAGIC_TOKEN, .str (strftime_dt d))]
          ∧ decode_value (encode_value (.datetime d)) = some (.datetime d))
    ∧ (∀ st : MonitorState,
        encode_value (.monitorstate st) =
            .obj [(MONITORSTATE_MAGIC_TOKEN, .str st.name)]
          ∧ decode_value (encode_value (.monitorstate st)) =
            some (.monitorstate st))
    ∧ (∀ (k : String) (v : JValue) (w : PyValue), decode_value v = some w →
        ¬ is_tag_shape k w →
        decode_value (.obj [(k, v)]) = some (.dict [(k, w)])) := by
  refine ⟨?_, ?_, ?_⟩
  · intro d h
    exact ⟨by simp [encode_value], decode_encode_datetime d h⟩
  · intro st
    exact ⟨by simp [encode_value], decode_encode_monitorstate st⟩
  · exact decode_obj_plain_pair

theorem claim_C3_codec_roundtrip_witness :
    decode_value (encode_value
          (.datetime ⟨2024, 2, 29, 13, 59, 58, 123456⟩)) =
        some (.datetime ⟨2024, 2, 29, 13, 59, 58, 123456⟩)
      ∧ decode_value (encode_value (.monitorstate MonitorState.OK)) =
        some (.monitorstate MonitorState.OK)
      ∧ decode_value (.obj [("plain", .int 7)]) =
        some (.dict [("plain", .int 7)]) := by
  refine ⟨?_, ?_, ?_⟩
  · exact (claim_C3_codec_roundtrip.1 ⟨2024, 2, 29, 13, 59, 58, 123456⟩
      (by decide)).2
  · exact (claim_C3_codec_roundtrip.2.1 MonitorState.OK).2
  · exact claim_C3_codec_roundtrip.2.2 "plain" (.int 7) (.int 7)
      (by simp [decode_value])
      (by rintro (⟨_, s, hs, _⟩ | ⟨_, s, hs⟩) <;> cases hs)

/-! Helper lemmas and claim for the config option resolver. -/

theorem convert_value_error_iff (rt : ReqType) (ae : Bool)
    (mi ma : Option Int) (v : Option CfgValue) :
    convert_value rt ae mi ma v = .error () ↔
      ((match v with
        | some (.str s) => (rt == ReqType.int && (parseInt s).isNone)
            || (rt == ReqType.listInt && (parseIntList s).isNone)
        | _ => false)
      || (match v with
        | some (.str s) => rt == ReqType.int &&
            (match parseInt s with
              | some n => below_min mi n || above_max ma n
              | none => false)
        | _ => false)
      || ((v == some (.str "")) && rt == ReqType.str && !ae)) = true := by
  cases v with
  | none => cases rt <;> simp [convert_value]
  | some val =>
      cases val with
      | str s =>
          cases rt with
          | str =>
              by_cases he : s = "" <;> by_cases hae : ae = true <;>
                simp [convert_value, he, hae]
          | int =>
              cases hp : parseInt s with
              | none => simp [convert_value, hp]
              | some n =>
                  by_cases hb : below_min mi n = true <;>
                  by_cases habv : above_max ma n = true <;>
                    simp [convert_value, hp, hb, habv]
          | bool => simp [convert_value]
          | listStr => simp [convert_value]
          | listInt =>
              cases hp : parseIntList s with
              | none => simp [convert_value, hp]
              | some l => simp [convert_value, hp]
      | int n => cases rt <;> simp [convert_value]
      | bool b => cases rt <;> simp [convert_value]
      | listStr l => cases rt <;> simp [convert_value]
      | listInt l => cases rt <;> simp [convert_value]

theorem check_allowed_error_iff (av : Option (List CfgValue))
    (v2 : Option CfgValue) :
    check_allowed av v2 = .error () ↔
      (match av with
        | none => false
        | some al =>
            match v2 with
            | some (.listStr l) =>
                if !al.isEmpty then !(l.all (fun s => al.contains (.str s)))
                else !(al.contains (.listStr l))
            | some (.listInt l) =>
                if !al.isEmpty then !(l.all (fun n => al.contains (.int n)))
                else !(al.contains (.listInt l))
            | some x => !(al.contains x)
            | none => true) = true := by
  cases av with
  | none => simp [check_allowed]
  | some al =>
      cases v2 with
      | none => simp [check_allowed]
      | some x =>
          cases x with
          | str s => simp [check_allowed]
          | int n => simp [check_allowed]
          | bool b => simp [check_allowed]
          | listStr l =>
              by_cases hemp : al.isEmpty = true <;>
              by_cases hall : l.all (fun s => al.contains (.str s)) = true <;>
                simp [check_allowed, hemp, hall]
          | listInt l =>
              by_cases hemp : al.isEmpty = true <;>
              by_cases hall : l.all (fun n => al.contains (.int n)) = true <;>
                simp [check_allowed, hemp, hall]

/-- C9 (amended): `get_config_option` raises exactly when the option is
required and missing, when a string value fails to parse as the required
type, when a string-parsed numeric value is below the minimum or above the
maximum, when the (possibly converted) value is not among `allowed_values`
(elementwise for list values against a non-empty allowed list, with a
missing value never a member), or — the case the original claim omits —
when a string value is empty while the required type is `str` and empty
values are disallowed; in every other case it returns without raising. -/
theorem claim_C9_config_errors :
    ∀ (options : List (String × CfgValue)) (key : String) (q : CfgQuery),
      get_config_option options key q = .error () ↔
        c9_raises_amended options key q = true := by
  intro options key q
  obtain ⟨df, req, rt, av, ae, mi, ma⟩ := q
  dsimp only [get_config_option, c9_raises_amended, c9_raises_as_stated,
    c9_required_missing, c9_parse_failure, c9_out_of_range, c9_not_allowed,
    c9_empty_rejected]
  cases hv : lookup_value options key df with
  | none =>
      cases req with
      | true => simp
      | false =>
          dsimp only [convert_value, Option.isNone]
          rw [if_neg (by simp : ¬ ((false && true) = true))]
          rw [check_allowed_error_iff]
          cases av <;> simp
  | some val =>
      dsimp only [Option.isNone]
      cases hc : convert_value rt ae mi ma (some val) with
      | error e =>
          cases e
          have hciff := convert_value_error_iff rt ae mi ma (some val)
          rw [hc] at hciff
          have hb := hciff.mp rfl
          rw [if_neg (by simp : ¬ ((req && false) = true))]
          dsimp only
          simp only [Bool.or_eq_true, Bool.and_eq_true, Bool.false_eq_true,
            and_false, false_and, or_false, false_or] at hb ⊢
          constructor
          · intro _
            tauto
          · intro _
            trivial
      | ok v2 =>
          have hciff := convert_value_error_iff rt ae mi ma (some val)
          rw [hc] at hciff
          have hb : ¬ (((match some val with
              | some (.str s) => (rt == ReqType.int && (parseInt s).isNone)
                  || (rt == ReqType.listInt && (parseIntList s).isNone)
              | _ => false)
            || (match some val with
              | some (.str s) => rt == ReqType.int &&
                  (match parseInt s with
                    | some n => below_min mi n || above_max ma n
                    | none => false)
              | _ => false)
            || ((some val == some (CfgValue.str "")) && rt == ReqType.str
                  && !ae)) = true) := fun hh => by
            have hcontra := hciff.mpr hh
            simp at hcontra
          rw [if_neg (by simp : ¬ ((req && false) = true))]
          dsimp only
          rw [check_allowed_error_iff]
          simp only [Bool.or_eq_true, Bool.and_eq_true, Bool.false_eq_true,
            and_false, false_and, or_false, false_or] at hb ⊢
          constructor
          · intro hx
            tauto
          · intro hx
            tauto

/-- C9 counterexample: an empty string value with `allow_empty=False` and
required type `str` makes the code raise although none of the four raise
reasons stated in the claim holds. -/
theorem claim_C9_counterexample :
    get_config_option [("opt", CfgValue.str "")] "opt"
        ⟨none, false, ReqType.str, none, false, none, none⟩ = .error ()
      ∧ c9_raises_as_stated [("opt", CfgValue.str "")] "opt"
        ⟨none, false, ReqType.str, none, false, none, none⟩ = false := by
  constructor <;> rfl

end SimpleMonitor
